import Mathlib

/-
Verification of the bitfield-functor register access layer
(src/bitfield.cpp): a 16-bit GPIO register image manipulated through
three field-accessor functors (two vacuum-solenoid enable bits, one
3-bit floodlight power field), plus the unit-test harness driving them.

The embedding is a direct state-passing translation of the C++ code.
Machine bit-fields are modelled as Fin types of the exact width
(a 1-bit field can only hold 0 or 1, a 3-bit field only 0..7), and a
bit-field store truncates modulo the field width, as in C++.
Throwing std::range_error is modelled as returning Except.error paired
with the register state at the throw point.
-/

/-- The 16-bit GPIO register image, from struct genpurpIO_register:
two 1-bit solenoid enable fields, a 3-bit floodlight power field, and
11 bits of padding that no accessor touches. -/
structure genpurpIO_register where
  energize_vac_solenoid2 : Fin 2
  energize_vac_solenoid3 : Fin 2
  floodlight_pwr : Fin 8
  padding : Fin 2048
deriving DecidableEq

/-- Every mock register in the harness is declared static, hence
zero-initialized before the accessor constructor runs. -/
def zeroReg : genpurpIO_register := ⟨0, 0, 0, 0⟩

/-- enum class vacuum: OFF = de-energized (bit 0), ON = energized (bit 1). -/
inductive vacuum where
  | OFF
  | ON
deriving DecidableEq

def FLOODLIGHT_OOR : Nat := 8
def FULL_ILLUMINATION : Nat := 7
def BRIGHT_LIGHTS : Nat := 4
def MOOD_LIGHTING : Nat := 2
def VERY_DIM_LIGHTS : Nat := 1
def LIGHTS_OUT : Nat := 0

/-- Models std::range_error: an exception value carrying a message. -/
structure RangeError where
  msg : String
deriving DecidableEq

/-- Constructor of set_bits< bf, solenoid2_t, vacuum >: stores the
register address and closes the valve on startup
(reg->energize_vac_solenoid2 = 0). -/
def solenoid2_ctor (r : genpurpIO_register) : genpurpIO_register :=
  { r with energize_vac_solenoid2 := 0 }

/-- operator()(vacuum) of the solenoid2 specialization: captures the
prior state (bit == 0 ? OFF : ON), stores the new state
(OFF ? 0 : 1), returns the prior state. Total: defined for every
enumeration value and every register state. -/
def solenoid2_set (val : vacuum) (r : genpurpIO_register) :
    vacuum × genpurpIO_register :=
  let retval := if r.energize_vac_solenoid2 = 0 then vacuum.OFF else vacuum.ON
  (retval, { r with energize_vac_solenoid2 := if val = vacuum.OFF then 0 else 1 })

/-- operator()() of the solenoid2 specialization: ON when the bit is 1,
else OFF. -/
def solenoid2_get (r : genpurpIO_register) : vacuum :=
  if r.energize_vac_solenoid2 = 1 then vacuum.ON else vacuum.OFF

/-- Constructor of set_bits< bf, solenoid3_t, vacuum >. -/
def solenoid3_ctor (r : genpurpIO_register) : genpurpIO_register :=
  { r with energize_vac_solenoid3 := 0 }

/-- operator()(vacuum) of the solenoid3 specialization. -/
def solenoid3_set (val : vacuum) (r : genpurpIO_register) :
    vacuum × genpurpIO_register :=
  let retval := if r.energize_vac_solenoid3 = 0 then vacuum.OFF else vacuum.ON
  (retval, { r with energize_vac_solenoid3 := if val = vacuum.OFF then 0 else 1 })

/-- operator()() of the solenoid3 specialization. -/
def solenoid3_get (r : genpurpIO_register) : vacuum :=
  if r.energize_vac_solenoid3 = 1 then vacuum.ON else vacuum.OFF

/-- The message built by the out-of-range branch of the floodlight
write functor (stringstream insertion of the offending value between
the two literal fragments). -/
def floodlight_oor_msg (val : Nat) : String :=
  "Incorrect attempt to set floodlight #42 pwr value to (" ++ toString val ++
    "). " ++ "Valid pwr settings range for floodlight #42 is 0:7. "

/-- A store into the 3-bit floodlight_pwr bit-field truncates modulo 8. -/
def floodlight_store (v : Nat) : Fin 8 := ⟨v % 8, Nat.mod_lt v (by decide)⟩

/-- Constructor of set_bits< bf, floodlight_t, floodlight_t >: kills the
floodlamp on startup (reg->floodlight_pwr = LIGHTS_OUT). -/
def floodlight_ctor (r : genpurpIO_register) : genpurpIO_register :=
  { r with floodlight_pwr := floodlight_store LIGHTS_OUT }

/-- operator()(floodlight_t) of the floodlight specialization: when
val >= FLOODLIGHT_OOR it throws std::range_error before any mutation
(the error is paired with the register exactly as it stood at the
throw); otherwise it captures the prior power setting, stores val, and
returns the prior setting. The C++ parameter type is std::uint16_t, so
the callable domain is 0..65535. -/
def floodlight_set (val : Nat) (r : genpurpIO_register) :
    Except RangeError Nat × genpurpIO_register :=
  if FLOODLIGHT_OOR ≤ val then
    (Except.error ⟨floodlight_oor_msg val⟩, r)
  else
    let retval := r.floodlight_pwr.val
    (Except.ok retval, { r with floodlight_pwr := floodlight_store val })

/-- operator()() of the floodlight specialization: the current 3-bit
power setting. -/
def floodlight_get (r : genpurpIO_register) : Nat :=
  r.floodlight_pwr.val

/-- C1: for every register image state and every uint16_t value v >= 8,
the floodlight write functor throws the out-of-range error before any
mutation, leaving the whole image (power field included) unchanged, and
the message names the offending value v and the valid range 0:7. -/
theorem C1_power_write_oor_rejects (r : genpurpIO_register) (v : Nat)
    (h8 : 8 ≤ v) (hw : v < 65536) :
    floodlight_set v r = (Except.error ⟨floodlight_oor_msg v⟩, r) ∧
    (∃ pre post, (floodlight_oor_msg v).data =
      pre ++ (toString v).data ++ post) ∧
    (∃ pre post, (floodlight_oor_msg v).data =
      pre ++ "0:7".data ++ post) := by
  refine ⟨?_, ?_, ?_⟩
  · simp only [floodlight_set, FLOODLIGHT_OOR, if_pos h8]
  · exact ⟨"Incorrect attempt to set floodlight #42 pwr value to (".data,
      "). Valid pwr settings range for floodlight #42 is 0:7. ".data, by
        simp [floodlight_oor_msg, String.data_append]⟩
  · refine ⟨("Incorrect attempt to set floodlight #42 pwr value to (" ++
      toString v ++ "). Valid pwr settings range for floodlight #42 is ").data,
      ". ".data, ?_⟩
    simp [floodlight_oor_msg, String.data_append]

theorem C1_power_write_oor_rejects_witness :
    8 ≤ 9 ∧ 9 < 65536 ∧
    (floodlight_set 9 zeroReg = (Except.error ⟨floodlight_oor_msg 9⟩, zeroReg) ∧
    (∃ pre post, (floodlight_oor_msg 9).data =
      pre ++ (toString 9).data ++ post) ∧
    (∃ pre post, (floodlight_oor_msg 9).data =
      pre ++ "0:7".data ++ post)) :=
  ⟨by decide, by decide,
    C1_power_write_oor_rejects zeroReg 9 (by decide) (by decide)⟩

/-- C2: for every register image state and every v in 0..7, the
floodlight write functor succeeds, returns the 3-bit power value held
immediately before the call, and a subsequent read returns v. -/
theorem C2_power_write_in_range (r : genpurpIO_register) (v : Nat)
    (h : v ≤ 7) :
    (floodlight_set v r).1 = Except.ok (floodlight_get r) ∧
    floodlight_get (floodlight_set v r).2 = v := by
  have hlt : ¬ FLOODLIGHT_OOR ≤ v := by
    simp only [FLOODLIGHT_OOR]; omega
  constructor
  · simp [floodlight_set, floodlight_get, if_neg hlt]
  · simp only [floodlight_set, if_neg hlt, floodlight_get, floodlight_store]
    exact Nat.mod_eq_of_lt (by omega)

theorem C2_power_write_in_range_witness :
    (5 : Nat) ≤ 7 ∧
    ((floodlight_set 5 zeroReg).1 = Except.ok (floodlight_get zeroReg) ∧
    floodlight_get (floodlight_set 5 zeroReg).2 = 5) :=
  ⟨by decide, C2_power_write_in_range zeroReg 5 (by decide)⟩

/-- C3: for both solenoid accessors, every register state, and all
states s, s1, s2: the write functor is total (it is a total function on
the two-valued enumeration by construction), write-then-read yields the
written state, and a second write returns the state left by the first
write (the previous-value convention). -/
theorem C3_solenoid_write_read_prev (r : genpurpIO_register)
    (s s1 s2 : vacuum) :
    solenoid2_get (solenoid2_set s r).2 = s ∧
    solenoid3_get (solenoid3_set s r).2 = s ∧
    (solenoid2_set s2 (solenoid2_set s1 r).2).1 = s1 ∧
    (solenoid3_set s2 (solenoid3_set s1 r).2).1 = s1 := by
  refine ⟨?_, ?_, ?_, ?_⟩ <;> cases s <;> cases s1 <;>
    simp [solenoid2_set, solenoid2_get, solenoid3_set, solenoid3_get]

/-- C4: for every initial register state, construction forces the
accessor's field to its startup default, so an immediate read returns
OFF for either solenoid and 0 for the power level; the constructors are
total functions (no error conditions). -/
theorem C4_ctor_defaults (r : genpurpIO_register) :
    solenoid2_get (solenoid2_ctor r) = vacuum.OFF ∧
    solenoid3_get (solenoid3_ctor r) = vacuum.OFF ∧
    floodlight_get (floodlight_ctor r) = 0 := by
  refine ⟨?_, ?_, ?_⟩ <;>
    simp [solenoid2_ctor, solenoid2_get, solenoid3_ctor, solenoid3_get,
      floodlight_ctor, floodlight_get, floodlight_store, LIGHTS_OUT]

/-- C5: every accessor operation touches only its own field. For every
register state, every solenoid state s and every power value v
(including out-of-range v, where the error path leaves everything
unchanged), each constructor and each write leaves the other two named
fields and the padding exactly as they were, so accessors over disjoint
fields never observe each other's writes. -/
theorem C5_frame (r : genpurpIO_register) (s : vacuum) (v : Nat) :
    ((solenoid2_ctor r).energize_vac_solenoid3 = r.energize_vac_solenoid3 ∧
     (solenoid2_ctor r).floodlight_pwr = r.floodlight_pwr ∧
     (solenoid2_ctor r).padding = r.padding) ∧
    ((solenoid2_set s r).2.energize_vac_solenoid3 = r.energize_vac_solenoid3 ∧
     (solenoid2_set s r).2.floodlight_pwr = r.floodlight_pwr ∧
     (solenoid2_set s r).2.padding = r.padding) ∧
    ((solenoid3_ctor r).energize_vac_solenoid2 = r.energize_vac_solenoid2 ∧
     (solenoid3_ctor r).floodlight_pwr = r.floodlight_pwr ∧
     (solenoid3_ctor r).padding = r.padding) ∧
    ((solenoid3_set s r).2.energize_vac_solenoid2 = r.energize_vac_solenoid2 ∧
     (solenoid3_set s r).2.floodlight_pwr = r.floodlight_pwr ∧
     (solenoid3_set s r).2.padding = r.padding) ∧
    ((floodlight_ctor r).energize_vac_solenoid2 = r.energize_vac_solenoid2 ∧
     (floodlight_ctor r).energize_vac_solenoid3 = r.energize_vac_solenoid3 ∧
     (floodlight_ctor r).padding = r.padding) ∧
    ((floodlight_set v r).2.energize_vac_solenoid2 = r.energize_vac_solenoid2 ∧
     (floodlight_set v r).2.energize_vac_solenoid3 = r.energize_vac_solenoid3 ∧
     (floodlight_set v r).2.padding = r.padding) := by
  refine ⟨⟨rfl, rfl, rfl⟩, ⟨rfl, rfl, rfl⟩, ⟨rfl, rfl, rfl⟩,
    ⟨rfl, rfl, rfl⟩, ⟨rfl, rfl, rfl⟩, ?_⟩
  unfold floodlight_set
  split <;> simp

/-- C9: the field-domain invariant holds in every representable
register state (the machine bit-fields cannot hold anything else), and
every accessor operation yields another such state, so the power read
functor never returns a value above 7 and the solenoid read functors
only ever return OFF or ON. -/
theorem C9_field_domain_invariant (r : genpurpIO_register) (s : vacuum)
    (v : Nat) :
    floodlight_get r ≤ 7 ∧
    (solenoid2_get r = vacuum.OFF ∨ solenoid2_get r = vacuum.ON) ∧
    (solenoid3_get r = vacuum.OFF ∨ solenoid3_get r = vacuum.ON) ∧
    floodlight_get (floodlight_set v r).2 ≤ 7 ∧
    floodlight_get (solenoid2_set s r).2 ≤ 7 ∧
    floodlight_get (solenoid3_set s r).2 ≤ 7 := by
  refine ⟨Nat.lt_succ_iff.mp r.floodlight_pwr.isLt, ?_, ?_,
    Nat.lt_succ_iff.mp (floodlight_set v r).2.floodlight_pwr.isLt,
    Nat.lt_succ_iff.mp (solenoid2_set s r).2.floodlight_pwr.isLt,
    Nat.lt_succ_iff.mp (solenoid3_set s r).2.floodlight_pwr.isLt⟩
  · unfold solenoid2_get
    split
    · exact Or.inr rfl
    · exact Or.inl rfl
  · unfold solenoid3_get
    split
    · exact Or.inr rfl
    · exact Or.inl rfl

/-- Column position for the ok text in the passed-line format. -/
def ok_col_pos : Nat := 95

/-- The 54-dot padding literal appended after each intent string. -/
def ut_dots : String :=
  "......................................................"

/-- rtrim from the source: erases trailing dot characters. -/
def rtrimDots (s : String) : String :=
  String.mk ((s.data.reverse.dropWhile (fun c => c == '.')).reverse)

/-- std::string::insert(pos, t): splices t at character position pos.
Every harness call site keeps pos within the string length. -/
def stringInsert (s : String) (pos : Nat) (t : String) : String :=
  String.mk (s.data.take pos ++ t.data ++ s.data.drop pos)

/-- ut_verify_solenoid_state: one solenoid assertion. Prints the utid
prefix, then on mismatch the FAILED marker, the intent, and the
expected/encountered report (expected label carries the expected state,
encountered label the actual state); on match a single padded ok line.
Returns the failure count and the stdout lines. -/
def ut_verify_solenoid_state (utid intent : String)
    (actual_state expected_state : vacuum) : Nat × List String :=
  let str_actual_state :=
    if actual_state = vacuum.ON then "vacuum::ON" else "vacuum::OFF"
  let str_expected_state :=
    if expected_state = vacuum.ON then "vacuum::ON" else "vacuum::OFF"
  if actual_state = expected_state then
    (0, [utid ++ ": " ++
      rtrimDots (stringInsert (intent ++ ut_dots) ok_col_pos "ok")])
  else
    (1, [utid ++ ": " ++ "FAILED!", intent,
      "expected(" ++ str_expected_state ++ ")",
      "encountered(" ++ str_actual_state ++ ")"])

/-- ut_verify_lamp_state: one floodlamp assertion. Same shape as the
solenoid reporter, except that in the failure branch the source
streams actual_settings after the expected( label and
expected_settings after the encountered( label. -/
def ut_verify_lamp_state (utid intent : String)
    (actual_settings expected_settings : Nat) : Nat × List String :=
  if actual_settings = expected_settings then
    (0, [utid ++ ": " ++
      rtrimDots (stringInsert (intent ++ ut_dots) ok_col_pos "ok")])
  else
    (1, [utid ++ ": " ++ "FAILED!", intent,
      "expected(" ++ toString actual_settings ++ ")",
      "encountered(" ++ toString expected_settings ++ ")"])

/-- ut00: the ctor sets solenoid2 to OFF (static register, zeroed). -/
def ut00 : Nat × List String :=
  let r := solenoid2_ctor zeroReg
  ut_verify_solenoid_state "ut00"
    "verifing that the ctor initialized solenoid2 to vacuum:OFF"
    (solenoid2_get r) vacuum.OFF

/-- ut01: the ctor sets solenoid3 to OFF. -/
def ut01 : Nat × List String :=
  let r := solenoid3_ctor zeroReg
  ut_verify_solenoid_state "ut01"
    "verifing that the ctor initialized solenoid3 to vacuum:OFF"
    (solenoid3_get r) vacuum.OFF

/-- ut02: the ctor sets the floodlamp to LIGHTS_OUT. -/
def ut02 : Nat × List String :=
  let r := floodlight_ctor zeroReg
  ut_verify_lamp_state "ut02"
    "verifing that the ctor initialized floodlamp to LIGHTS_OUT"
    (floodlight_get r) LIGHTS_OUT

/-- ut03: writing ON to solenoid2 returns the prior OFF; a read then
returns ON. -/
def ut03 : Nat × List String :=
  let r1 := solenoid2_ctor zeroReg
  let w1 := solenoid2_set vacuum.ON r1
  let v1 := ut_verify_solenoid_state "ut03"
    "verifing that the solenoid2\x27s functor can return solenoid state prior to the functor call"
    w1.1 vacuum.OFF
  let v2 := ut_verify_solenoid_state "ut03"
    "verifing that the solenoid2\x27s functor can energize solenoid2"
    (solenoid2_get w1.2) vacuum.ON
  (v1.1 + v2.1, v1.2 ++ v2.2)

/-- ut04: same as ut03 for solenoid3. -/
def ut04 : Nat × List String :=
  let r1 := solenoid3_ctor zeroReg
  let w1 := solenoid3_set vacuum.ON r1
  let v1 := ut_verify_solenoid_state "ut04"
    "verifing that the solenoid3\x27s functor can return solenoid state prior to the functor call"
    w1.1 vacuum.OFF
  let v2 := ut_verify_solenoid_state "ut04"
    "verifing that the solenoid3\x27s functor can energize solenoid3"
    (solenoid3_get w1.2) vacuum.ON
  (v1.1 + v2.1, v1.2 ++ v2.2)

/-- ut05: writing OFF to an energized solenoid2 returns the prior ON; a
read then returns OFF. -/
def ut05 : Nat × List String :=
  let r1 := solenoid2_ctor zeroReg
  let r2 := (solenoid2_set vacuum.ON r1).2
  let w1 := solenoid2_set vacuum.OFF r2
  let v1 := ut_verify_solenoid_state "ut05"
    "verifing that the solenoid2\x27s functor can return solenoid state prior to the functor call"
    w1.1 vacuum.ON
  let v2 := ut_verify_solenoid_state "ut05"
    "verifing that the solenoid2\x27s functor can de-energize solenoid2"
    (solenoid2_get w1.2) vacuum.OFF
  (v1.1 + v2.1, v1.2 ++ v2.2)

/-- ut06: same as ut05 for solenoid3. -/
def ut06 : Nat × List String :=
  let r1 := solenoid3_ctor zeroReg
  let r2 := (solenoid3_set vacuum.ON r1).2
  let w1 := solenoid3_set vacuum.OFF r2
  let v1 := ut_verify_solenoid_state "ut06"
    "verifing that the solenoid3\x27s functor can return solenoid state prior to the functor call"
    w1.1 vacuum.ON
  let v2 := ut_verify_solenoid_state "ut06"
    "verifing that the solenoid3\x27s functor can de-energize solenoid3"
    (solenoid3_get w1.2) vacuum.OFF
  (v1.1 + v2.1, v1.2 ++ v2.2)

/-- ut07: writing level 7 from the initial 0 returns the prior 0; a
read then returns 7. A range_error escaping a floodlamp write would
propagate out of the scenario to the top-level catch in main, so these
scenarios are Except-valued; every argument here is in 0..7. -/
def ut07 : Except RangeError (Nat × List String) :=
  let r1 := floodlight_ctor zeroReg
  match floodlight_set FULL_ILLUMINATION r1 with
  | (Except.error e, _) => Except.error e
  | (Except.ok prev, r2) =>
    let v1 := ut_verify_lamp_state "ut07"
      "verifing that the floodlamp\x27s functor can return solenoid state prior to the functor call"
      prev LIGHTS_OUT
    let v2 := ut_verify_lamp_state "ut07"
      "verifing that functor can set the floodlamp to max power"
      (floodlight_get r2) FULL_ILLUMINATION
    Except.ok (v1.1 + v2.1, v1.2 ++ v2.2)

/-- ut08: walking ones step: from full power, writing 4 returns the
prior 7; a read then returns 4. -/
def ut08 : Except RangeError (Nat × List String) :=
  let r1 := floodlight_ctor zeroReg
  match floodlight_set FULL_ILLUMINATION r1 with
  | (Except.error e, _) => Except.error e
  | (Except.ok _, r2) =>
    match floodlight_set BRIGHT_LIGHTS r2 with
    | (Except.error e, _) => Except.error e
    | (Except.ok prev, r3) =>
      let v1 := ut_verify_lamp_state "ut08"
        "verifing that the floodlamp\x27s functor can return floodlamp state prior to the functor call"
        prev FULL_ILLUMINATION
      let v2 := ut_verify_lamp_state "ut08"
        "Walking 1\x27s testing. power bit pattern == 0B100"
        (floodlight_get r3) BRIGHT_LIGHTS
      Except.ok (v1.1 + v2.1, v1.2 ++ v2.2)

/-- ut09: walking ones step: from 4, writing 2 returns the prior 4; a
read then returns 2. -/
def ut09 : Except RangeError (Nat × List String) :=
  let r1 := floodlight_ctor zeroReg
  match floodlight_set BRIGHT_LIGHTS r1 with
  | (Except.error e, _) => Except.error e
  | (Except.ok _, r2) =>
    match floodlight_set MOOD_LIGHTING r2 with
    | (Except.error e, _) => Except.error e
    | (Except.ok prev, r3) =>
      let v1 := ut_verify_lamp_state "ut09"
        "verifing that the floodlamp\x27s functor can return floodlamp state prior to the functor call"
        prev BRIGHT_LIGHTS
      let v2 := ut_verify_lamp_state "ut09"
        "Walking 1\x27s testing. power bit pattern == 0B010"
        (floodlight_get r3) MOOD_LIGHTING
      Except.ok (v1.1 + v2.1, v1.2 ++ v2.2)

/-- ut10: walking ones step: from 2, writing 1 returns the prior 2; a
read then returns 1. -/
def ut10 : Except RangeError (Nat × List String) :=
  let r1 := floodlight_ctor zeroReg
  match floodlight_set MOOD_LIGHTING r1 with
  | (Except.error e, _) => Except.error e
  | (Except.ok _, r2) =>
    match floodlight_set VERY_DIM_LIGHTS r2 with
    | (Except.error e, _) => Except.error e
    | (Except.ok prev, r3) =>
      let v1 := ut_verify_lamp_state "ut10"
        "verifing that the floodlamp\x27s functor can return floodlamp state prior to the functor call"
        prev MOOD_LIGHTING
      let v2 := ut_verify_lamp_state "ut10"
        "Walking 1\x27s testing. power bit pattern == 0B001"
        (floodlight_get r3) VERY_DIM_LIGHTS
      Except.ok (v1.1 + v2.1, v1.2 ++ v2.2)

/-- ut11: from 1, writing 0 returns the prior 1; a read then returns 0. -/
def ut11 : Except RangeError (Nat × List String) :=
  let r1 := floodlight_ctor zeroReg
  match floodlight_set VERY_DIM_LIGHTS r1 with
  | (Except.error e, _) => Except.error e
  | (Except.ok _, r2) =>
    match floodlight_set LIGHTS_OUT r2 with
    | (Except.error e, _) => Except.error e
    | (Except.ok prev, r3) =>
      let v1 := ut_verify_lamp_state "ut11"
        "verifing that the floodlamp\x27s functor can return floodlamp state prior to the functor call"
        prev VERY_DIM_LIGHTS
      let v2 := ut_verify_lamp_state "ut11"
        "Verify that functor can remove power from floodlamp"
        (floodlight_get r3) LIGHTS_OUT
      Except.ok (v1.1 + v2.1, v1.2 ++ v2.2)

/-- The catch clause of ut12 in isolation: given the caught range_error
e and the padded intent text, it sets something_failed to 0 and builds
the ok line. The source binds e but reads no component of it, so the
result does not depend on e. -/
def ut12_catch (e : RangeError) (intentP : String) : Nat × String :=
  (0, rtrimDots (stringInsert intentP ok_col_pos "ok"))

/-- ut12: the out-of-range scenario. Writes FLOODLIGHT_OOR (8) to a
freshly constructed floodlamp accessor; if no exception is thrown the
scenario fails with a FAILED line, and if a range_error is thrown the
catch clause records a pass. -/
def ut12 : Nat × List String :=
  let r1 := floodlight_ctor zeroReg
  let intentP :=
    "Verifing floodlamp\x27s \x27Out of Range\x27 exception." ++ ut_dots
  match floodlight_set FLOODLIGHT_OOR r1 with
  | (Except.ok _, _) =>
    (1, ["ut12: " ++ rtrimDots (stringInsert intentP ok_col_pos "FAILED!")])
  | (Except.error e, _) =>
    let c := ut12_catch e intentP
    (c.1, ["ut12: " ++ c.2])

/-- The try block of main: the thirteen scenarios in order, each either
returning its failure count and stdout lines or raising an exception
that escapes it. -/
def mainScenarios : List (Except RangeError (Nat × List String)) :=
  [Except.ok ut00, Except.ok ut01, Except.ok ut02, Except.ok ut03,
   Except.ok ut04, Except.ok ut05, Except.ok ut06,
   ut07, ut08, ut09, ut10, ut11, Except.ok ut12]

/-- Folds the try block: accumulates something_failed (bool +=
failure count) and stdout lines; an escaping exception aborts the
remaining scenarios and is caught at the top level, which forces
something_failed to true. -/
def mainTryBlock :
    List (Except RangeError (Nat × List String)) → Bool × List String
  | [] => (false, [])
  | Except.error _ :: _ => (true, [])
  | Except.ok (n, ls) :: rest =>
    let acc := mainTryBlock rest
    (decide (n ≠ 0) || acc.1, ls ++ acc.2)

/-- The tail of main: when something failed, prints the failure banner
to stderr and exits 1; otherwise prints the passed banner to stdout and
returns 0. Result: (exit status, stdout lines, stderr lines). -/
def mainSummary (something_failed : Bool) :
    Nat × List String × List String :=
  if something_failed then (1, [], ["", "UNIT TEST FAILED!"])
  else (0, ["", "UNIT TEST passed!"], [])

/-- main(argc, argv): constructs the shared register and the three
accessors, runs all scenarios, then the summary. Neither argc nor argv
is ever read. Result: (exit status, stdout transcript). -/
def mainRun (argc : Nat) (argv : List String) : Nat × List String :=
  let t := mainTryBlock mainScenarios
  let s := mainSummary t.1
  (s.1, t.2 ++ s.2.1)

/-- C6 counterexample: the out-of-range scenario is claimed to assert
that the error message is well-formed, which would require the verdict
of the catch clause to depend on the message; but the catch clause
passes (verdict 0) even when the caught error carries an empty,
malformed message. -/
theorem C6_counterexample_empty_message_passes :
    (ut12_catch ⟨""⟩
      ("Verifing floodlamp\x27s \x27Out of Range\x27 exception." ++
        ut_dots)).1 = 0 := rfl

/-- C6 amended: ut12 asserts only that writing 8 to the power accessor
raises the out-of-range error; the caught error is never examined, so
the scenario verdict is pass for every possible message content. -/
theorem C6_ut12_asserts_error_only :
    ut12.1 = 0 ∧
    (floodlight_set FLOODLIGHT_OOR (floodlight_ctor zeroReg)).1 =
      Except.error ⟨floodlight_oor_msg 8⟩ ∧
    (∀ e : RangeError, ∀ intentP : String,
      (ut12_catch e intentP).1 = 0) :=
  ⟨rfl, rfl, fun _ _ => rfl⟩

/-- C7: with every assertion succeeding, main appends exactly the
summary line UNIT TEST passed! (after a blank line) to the transcript
and exits with status 0; and by the summary logic, a failed run would
instead print the UNIT TEST FAILED! banner to stderr and exit 1. -/
theorem C7_final_summary :
    (mainRun 1 ["bitfield"]).1 = 0 ∧
    (mainRun 1 ["bitfield"]).2.getLast? = some "UNIT TEST passed!" ∧
    mainSummary false = (0, ["", "UNIT TEST passed!"], []) ∧
    mainSummary true = (1, [], ["", "UNIT TEST FAILED!"]) :=
  ⟨rfl, rfl, rfl, rfl⟩

/-- C8: the harness is deterministic: its transcript and exit status
are a pure function of nothing but the code itself; in particular they
do not depend on the command-line arguments, the only run-varying
input main receives, so two runs produce identical transcripts. -/
theorem C8_transcript_deterministic (a1 a2 : Nat)
    (v1 v2 : List String) : mainRun a1 v1 = mainRun a2 v2 := rfl

/-- C10: on a failing lamp assertion the reporter prints the actual
observed setting after the expected( label and the expected setting
after the encountered( label (the two are swapped), while on a failing
solenoid assertion the reporter prints the expected state after
expected( and the actual state after encountered(. -/
theorem C10_lamp_failure_labels_swapped
    (utid intent : String) (a e : Nat) (va ve : vacuum)
    (hne : a ≠ e) (hv : va ≠ ve) :
    ut_verify_lamp_state utid intent a e =
      (1, [utid ++ ": " ++ "FAILED!", intent,
        "expected(" ++ toString a ++ ")",
        "encountered(" ++ toString e ++ ")"]) ∧
    ut_verify_solenoid_state utid intent va ve =
      (1, [utid ++ ": " ++ "FAILED!", intent,
        "expected(" ++
          (if ve = vacuum.ON then "vacuum::ON" else "vacuum::OFF") ++ ")",
        "encountered(" ++
          (if va = vacuum.ON then "vacuum::ON" else "vacuum::OFF") ++ ")"]) := by
  constructor
  · simp [ut_verify_lamp_state, if_neg hne]
  · simp [ut_verify_solenoid_state, if_neg hv]

theorem C10_lamp_failure_labels_swapped_witness :
    (3 : Nat) ≠ 5 ∧ vacuum.ON ≠ vacuum.OFF ∧
    (ut_verify_lamp_state "utx" "intent" 3 5 =
      (1, ["utx" ++ ": " ++ "FAILED!", "intent",
        "expected(" ++ toString 3 ++ ")",
        "encountered(" ++ toString 5 ++ ")"]) ∧
    ut_verify_solenoid_state "utx" "intent" vacuum.ON vacuum.OFF =
      (1, ["utx" ++ ": " ++ "FAILED!", "intent",
        "expected(" ++
          (if vacuum.OFF = vacuum.ON then "vacuum::ON" else "vacuum::OFF") ++ ")",
        "encountered(" ++
          (if vacuum.ON = vacuum.ON then "vacuum::ON" else "vacuum::OFF") ++ ")"])) :=
  ⟨by decide, by decide,
    C10_lamp_failure_labels_swapped "utx" "intent" 3 5 vacuum.ON vacuum.OFF
      (by decide) (by decide)⟩
